import Mathlib

/-!
Shallow embedding of the CyberGuard dashboard frontend
(React/TypeScript), covering the API client (src/services/api.ts),
the Users page (src/pages/Users.tsx), the Dashboard page, the
UserDetail page (src/pages/UserDetail.tsx), the Recommendations page,
and the RiskSimulator component.

Numbers that are TypeScript floats are modelled as rationals (ℚ);
JavaScript `undefined` is modelled as `Option.none`; a rejected
promise is modelled with `Except`.
-/

namespace CyberGuard

/-- UserRiskData interface from src/services/api.ts: user identifier,
display name, email, numeric current score, categorical risk level,
last-updated timestamp. -/
structure UserRiskData where
  user_id : String
  name : String
  email : String
  current_score : ℚ
  risk_level : String
  last_updated : String
deriving DecidableEq

/-- Severity band a score is displayed in, abstracted from the colour
class strings the components return. -/
inductive Band where
  | green
  | yellow
  | orange
  | red
deriving DecidableEq

/-- Rank of a band, for stating monotonicity: green < yellow < orange < red. -/
def Band.rank : Band → Nat
  | .green => 0
  | .yellow => 1
  | .orange => 2
  | .red => 3

/-- Band named by a colour class string: reads the leading colour of the
class list ("text-red…" ↦ red, "text-orange…" ↦ orange, "text-yellow…" ↦
yellow, anything else green, matching the components' strings). -/
def classBand (s : String) : Band :=
  match s.toList with
  | 't' :: 'e' :: 'x' :: 't' :: '-' :: 'r' :: _ => .red
  | 't' :: 'e' :: 'x' :: 't' :: '-' :: 'o' :: _ => .orange
  | 't' :: 'e' :: 'x' :: 't' :: '-' :: 'y' :: _ => .yellow
  | _ => .green

/-- getRiskScoreColor from src/pages/Users.tsx (lines 57-62). -/
def Users.getRiskScoreColor (score : ℚ) : String :=
  if score ≥ 40 then "text-red-600 dark:text-red-400"
  else if score ≥ 30 then "text-orange-600 dark:text-orange-400"
  else if score ≥ 20 then "text-yellow-600 dark:text-yellow-400"
  else "text-green-600 dark:text-green-400"

/-- getRiskColor from the RiskSimulator component (lines 44-49). -/
def RiskSimulator.getRiskColor (score : ℚ) : String :=
  if score ≥ 40 then "text-red-600 bg-red-50 border-red-200"
  else if score ≥ 30 then "text-orange-600 bg-orange-50 border-orange-200"
  else if score ≥ 20 then "text-yellow-600 bg-yellow-50 border-yellow-200"
  else "text-green-600 bg-green-50 border-green-200"

/-- getRiskScoreColor from src/pages/UserDetail.tsx (lines 39-44). -/
def UserDetail.getRiskScoreColor (score : ℚ) : String :=
  if score ≥ 40 then "text-red-600 dark:text-red-400 bg-red-50 dark:bg-red-900/20"
  else if score ≥ 30 then "text-orange-600 dark:text-orange-400 bg-orange-50 dark:bg-orange-900/20"
  else if score ≥ 20 then "text-yellow-600 dark:text-yellow-400 bg-yellow-50 dark:bg-yellow-900/20"
  else "text-green-600 dark:text-green-400 bg-green-50 dark:bg-green-900/20"

/-- Helper for JavaScript's String.prototype.includes: does the haystack
start with the needle (character by character)? -/
def leadMatch : List Char → List Char → Bool
  | [], _ => true
  | _ :: _, [] => false
  | c :: cs, d :: ds => c == d && leadMatch cs ds

/-- Helper for JavaScript's String.prototype.includes: does the needle
occur contiguously anywhere in the haystack? The empty needle occurs in
every haystack, as in JavaScript. -/
def subListB (needle : List Char) : List Char → Bool
  | [] => leadMatch needle []
  | d :: ds => leadMatch needle (d :: ds) || subListB needle ds

/-- JavaScript `hay.includes(needle)`: contiguous-substring test. -/
def jsIncludes (hay needle : String) : Bool :=
  subListB needle.toList hay.toList

/-- JavaScript String.prototype.toLowerCase, modelled character-wise
(ASCII letters are lowered, other characters kept). -/
def jsToLower (s : String) : String :=
  String.mk (s.data.map Char.toLower)

/-- Search predicate of filterUsers in src/pages/Users.tsx (lines 34-37):
user.name.toLowerCase().includes(searchTerm.toLowerCase()) ||
user.email.toLowerCase().includes(searchTerm.toLowerCase()). -/
def matchesSearch (u : UserRiskData) (searchTerm : String) : Bool :=
  jsIncludes (jsToLower u.name) (jsToLower searchTerm) ||
  jsIncludes (jsToLower u.email) (jsToLower searchTerm)

/-- filterUsers from src/pages/Users.tsx (lines 33-45): filter by the
search term over name/email, then (when the selected risk-level filter
differs from "all") keep only users whose risk_level matches it
case-insensitively, then sort descending by current_score (the
comparator (a, b) => b.current_score - a.current_score). -/
def filterUsers (users : List UserRiskData) (searchTerm selectedFilter : String) :
    List UserRiskData :=
  List.mergeSort
    (if selectedFilter ≠ "all" then
      ((users.filter fun u => matchesSearch u searchTerm).filter
        fun u => jsToLower u.risk_level == selectedFilter)
    else
      users.filter fun u => matchesSearch u searchTerm)
    (fun a b => decide (b.current_score ≤ a.current_score))

/-- Axios response wrapper: the payload is carried in the data field. -/
structure AxiosResponse (α : Type) where
  data : α
deriving DecidableEq

/-- getUserRiskScores from src/services/api.ts (lines 26-29): performs the
GET round trip (the server payload arrives wrapped in an axios response)
and returns response.data, i.e. the bare UserRiskData array. -/
def riskAPI.getUserRiskScores (serverPayload : List UserRiskData) : List UserRiskData :=
  (AxiosResponse.mk serverPayload).data

/-- JavaScript property access xs.data on an array value: arrays have no
data property, so the access evaluates to undefined (none). -/
def jsArrayDataField (_xs : List UserRiskData) : Option (List UserRiskData) :=
  none

/-- Observable outcome of running one page fetch handler:
newData is none when the state setter was never called, some v when it
was called with v (where v itself is none for undefined); the counters
record console.error calls and toast notifications; isLoadingAfter is
the loading flag once the handler finished. -/
structure FetchResult (α : Type) where
  newData : Option (Option α)
  consoleErrors : Nat
  errorToasts : Nat
  successToasts : Nat
  isLoadingAfter : Bool
deriving DecidableEq

/-- fetchUsers from src/pages/Users.tsx (lines 22-31): on success it calls
setUsers(response.data) where response is already the array returned by
riskAPI.getUserRiskScores, so the stored value is the undefined data
property of an array; on failure it only logs to the console; either way
the finally block clears isLoading. -/
def fetchUsersRun (outcome : Except Unit (List UserRiskData)) :
    FetchResult (List UserRiskData) :=
  match outcome with
  | Except.ok serverPayload =>
    { newData := some (jsArrayDataField (riskAPI.getUserRiskScores serverPayload))
      consoleErrors := 0
      errorToasts := 0
      successToasts := 0
      isLoadingAfter := false }
  | Except.error _ =>
    { newData := none
      consoleErrors := 1
      errorToasts := 0
      successToasts := 0
      isLoadingAfter := false }

/-- Rendered table rows of the Users page given the users state: the page
maps over filteredUsers; when the users state is undefined the render
dereferences users.length and users.filter and throws, so no row count is
produced (none). -/
def renderedUserRows (usersState : Option (List UserRiskData))
    (searchTerm selectedFilter : String) : Option Nat :=
  match usersState with
  | some us => some (filterUsers us searchTerm selectedFilter).length
  | none => none

/-- Recommendation record from the Recommendations page component. -/
structure Recommendation where
  user_id : Int
  user_name : String
  user_email : String
  risk_score : ℚ
  risk_level : String
  recommendations : List String
  recent_activity_count : Int
  last_updated : String
deriving DecidableEq

/-- RecommendationsData from the Recommendations page component. -/
structure RecommendationsData where
  total_high_risk_users : Int
  recommendations : List Recommendation
  generated_at : String
deriving DecidableEq

/-- Outcome of a browser fetch call: a resolved response with ok status
and a JSON body, a resolved response with a non-ok status, or a rejected
promise (network failure). -/
inductive HttpOutcome (α : Type) where
  | ok (body : α)
  | httpError
  | networkError
deriving DecidableEq

/-- fetchRecommendations from the Recommendations page (lines 32-51):
fetch with a bearer header; when response.ok the JSON body is stored;
when the response is not ok nothing at all happens; a rejected promise is
logged and surfaces one error toast; the finally block clears isLoading
and isRefreshing. -/
def fetchRecommendationsRun (outcome : HttpOutcome RecommendationsData) :
    FetchResult RecommendationsData :=
  match outcome with
  | HttpOutcome.ok body =>
    { newData := some (some body)
      consoleErrors := 0
      errorToasts := 0
      successToasts := 0
      isLoadingAfter := false }
  | HttpOutcome.httpError =>
    { newData := none
      consoleErrors := 0
      errorToasts := 0
      successToasts := 0
      isLoadingAfter := false }
  | HttpOutcome.networkError =>
    { newData := none
      consoleErrors := 1
      errorToasts := 1
      successToasts := 0
      isLoadingAfter := false }

/-- DashboardStats interface from the Dashboard component. -/
structure DashboardStats where
  total_users : Int
  high_risk_users : Int
  recent_alerts : Int
  average_risk_score : ℚ
deriving DecidableEq

/-- RiskTrend interface from the Dashboard component. -/
structure RiskTrend where
  date : String
  average_score : ℚ
deriving DecidableEq

/-- fetchDashboardData from the Dashboard component (lines 308-322 of
the concatenated Users.tsx source): the try block awaits
Promise.all of riskAPI.getDashboardStats() and riskAPI.getRiskTrends()
and stores statsResponse.data and trendsResponse.data (the responses
are modelled as axios responses carrying the payload in data, as those
accesses expect); any rejection or exception in the try block —
including the TypeError from the two client methods being undefined,
claim C1 — reaches the catch, which only logs to the console and shows
no toast; the finally block clears isLoading. -/
def fetchDashboardDataRun
    (outcome : Except Unit (AxiosResponse DashboardStats × AxiosResponse (List RiskTrend))) :
    FetchResult (DashboardStats × List RiskTrend) :=
  match outcome with
  | Except.ok resp =>
    { newData := some (some (resp.1.data, resp.2.data))
      consoleErrors := 0
      errorToasts := 0
      successToasts := 0
      isLoadingAfter := false }
  | Except.error _ =>
    { newData := none
      consoleErrors := 1
      errorToasts := 0
      successToasts := 0
      isLoadingAfter := false }

/-- Names of the methods the riskAPI object in src/services/api.ts
(lines 24-47) defines, in source order. -/
def riskAPIMethods : List String :=
  ["getUserRiskScores", "getUserById", "updateRiskScore"]

/-- riskAPI methods invoked by fetchDashboardData on the Dashboard page
(Promise.all of getDashboardStats and getRiskTrends). -/
def dashboardClientCalls : List String :=
  ["getDashboardStats", "getRiskTrends"]

/-- riskAPI methods invoked by fetchUserData on the UserDetail page
(lines 21-37): Promise.all of getUserActivity and getUserRiskScores. -/
def userDetailClientCalls : List String :=
  ["getUserActivity", "getUserRiskScores"]

/-- riskAPI method invoked by handleSubmit in the RiskSimulator
component (line 26): riskAPI.predict(formData). -/
def simulatorClientCalls : List String :=
  ["predict"]

/-- PredictionRequest draft held in the RiskSimulator form state: user
id, action, resource, location, success flag, login frequency, failed
attempts, file size, session duration. -/
structure PredictionRequest where
  user_id : Int
  action : String
  resource : String
  location : String
  success : Bool
  login_frequency : Int
  failed_attempts : Int
  file_size : Int
  session_duration : Int
deriving DecidableEq

/-- Fields a preset scenario object may carry (the union of the field
names appearing in the four presetScenarios data objects, lines 51-97);
none means the preset omits the field. No preset carries user_id or
login_frequency, so those fields cannot appear here. -/
structure PresetData where
  action : Option String
  resource : Option String
  location : Option String
  success : Option Bool
  failed_attempts : Option Int
  file_size : Option Int
  session_duration : Option Int
deriving DecidableEq

/-- Preset button onClick (line 109):
setFormData(prev => (\x7b ...prev, ...scenario.data \x7d)) — a shallow
merge where a field present in the preset wins and every other field
keeps its prior draft value. -/
def applyPreset (p : PresetData) (prev : PredictionRequest) : PredictionRequest :=
  { user_id := prev.user_id
    action := p.action.getD prev.action
    resource := p.resource.getD prev.resource
    location := p.location.getD prev.location
    success := p.success.getD prev.success
    login_frequency := prev.login_frequency
    failed_attempts := p.failed_attempts.getD prev.failed_attempts
    file_size := p.file_size.getD prev.file_size
    session_duration := p.session_duration.getD prev.session_duration }

/-- Preset "Normal Activity" (lines 52-62). -/
def normalActivityPreset : PresetData :=
  { action := some "file_access"
    resource := some "/documents/report.pdf"
    location := some "192.168.1.100"
    success := some true
    failed_attempts := some 0
    file_size := none
    session_duration := some 120 }

/-- Preset "Suspicious Late Access" (lines 63-73). -/
def suspiciousLateAccessPreset : PresetData :=
  { action := some "system_access"
    resource := some "/admin/config.php"
    location := some "203.0.113.42"
    success := some true
    failed_attempts := some 0
    file_size := none
    session_duration := some 15 }

/-- Preset "Failed Login Attempts" (lines 74-84): action, resource,
location, success, failed_attempts, session_duration — no file_size. -/
def failedLoginAttemptsPreset : PresetData :=
  { action := some "login"
    resource := some "/login"
    location := some "198.51.100.30"
    success := some false
    failed_attempts := some 5
    file_size := none
    session_duration := some 5 }

/-- Preset "Large Data Download" (lines 85-96). -/
def largeDataDownloadPreset : PresetData :=
  { action := some "download"
    resource := some "/database/backup.sql"
    location := some "10.0.0.50"
    success := some true
    failed_attempts := some 0
    file_size := some 2048
    session_duration := some 300 }

/-- PredictionResult displayed by the simulator: risk score, explanation,
recommendation strings, timestamp. -/
structure PredictionResult where
  risk_score : ℚ
  explanation : String
  recommendations : List String
  timestamp : String
deriving DecidableEq

/-- A react-hot-toast notification, success or error, with its message. -/
inductive ToastKind where
  | success (msg : String)
  | error (msg : String)
deriving DecidableEq

/-- Observable state of the RiskSimulator component: the isLoading flag
(the submit button renders with disabled=isLoading), the displayed
result, the toasts emitted so far, and the number of prediction requests
currently in flight. -/
structure SimState where
  isLoading : Bool
  result : Option PredictionResult
  toasts : List ToastKind
  inFlight : Nat
deriving DecidableEq

/-- Initial simulator state: not loading, no result, no toasts. -/
def initSimState : SimState :=
  { isLoading := false, result := none, toasts := [], inFlight := 0 }

/-- handleSubmit entry (lines 21-26): setIsLoading(true) and the predict
request goes out. -/
def submitStart (s : SimState) : SimState :=
  { s with isLoading := true, inFlight := s.inFlight + 1 }

/-- handleSubmit success path (lines 26-28, 32-34): setResult with the
response, toast.success, and the finally block setIsLoading(false). -/
def resolveSuccess (r : PredictionResult) (s : SimState) : SimState :=
  { s with
    result := some r
    toasts := s.toasts ++ [ToastKind.success "Risk assessment completed!"]
    isLoading := false
    inFlight := s.inFlight - 1 }

/-- handleSubmit catch path (lines 29-34): toast.error and console.error,
result untouched, and the finally block setIsLoading(false). -/
def resolveFailure (s : SimState) : SimState :=
  { s with
    toasts := s.toasts ++ [ToastKind.error "Failed to assess risk"]
    isLoading := false
    inFlight := s.inFlight - 1 }

/-- Event-level semantics of the simulator: a submit fires only while the
submit control is enabled (disabled=isLoading, line 231), and a response
resolves only while a request is outstanding. -/
inductive SimStep : SimState → SimState → Prop where
  | submit (s : SimState) : s.isLoading = false → SimStep s (submitStart s)
  | resolveOk (s : SimState) (r : PredictionResult) :
      0 < s.inFlight → SimStep s (resolveSuccess r s)
  | resolveErr (s : SimState) : 0 < s.inFlight → SimStep s (resolveFailure s)

/-- States the simulator can reach from its initial state. -/
inductive SimReachable : SimState → Prop where
  | init : SimReachable initSimState
  | step {s t : SimState} : SimReachable s → SimStep s t → SimReachable t

/-- ActivityLog record rendered by the UserDetail page. -/
structure ActivityLog where
  id : Int
  user_id : Int
  action : String
  resource : Option String
  location : Option String
  success : Bool
  risk_score : ℚ
  timestamp : String
deriving DecidableEq

/-- fetchUserData from src/pages/UserDetail.tsx (lines 21-37): the try
block awaits Promise.all of riskAPI.getUserActivity(id) and
riskAPI.getUserRiskScores(), looks the user up in the risk-scores
response, and stores activitiesResponse.data together with the found
user (the lookup's result is passed in here already computed); any
rejection or exception in the try block — including the TypeError from
getUserActivity being undefined on the client, claim C1 — reaches the
catch, which only logs to the console and shows no toast; the finally
block clears isLoading. -/
def fetchUserDataRun
    (outcome : Except Unit (AxiosResponse (List ActivityLog) × Option UserRiskData)) :
    FetchResult (List ActivityLog × Option UserRiskData) :=
  match outcome with
  | Except.ok resp =>
    { newData := some (some (resp.1.data, resp.2))
      consoleErrors := 0
      errorToasts := 0
      successToasts := 0
      isLoadingAfter := false }
  | Except.error _ =>
    { newData := none
      consoleErrors := 1
      errorToasts := 0
      successToasts := 0
      isLoadingAfter := false }

/-- Decimal rendering used to model Number.prototype.toFixed(1) on the
nonnegative scores the pages display: round to one decimal digit and
print integer part, dot, single digit. -/
def toFixed1 (q : ℚ) : String :=
  toString (round (q * 10) / 10) ++ "." ++ toString ((round (q * 10)) % 10)

/-- Avg Risk Score card of src/pages/UserDetail.tsx (lines 190-196):
activities.length > 0 ? (activities.reduce((sum, a) =>
sum + a.risk_score, 0) / activities.length).toFixed(1) : '0.0'. -/
def avgRiskScoreDisplay (activities : List ActivityLog) : String :=
  if activities.length > 0 then
    toFixed1
      ((activities.foldl (fun sum a => sum + a.risk_score) 0) /
        (activities.length : ℚ))
  else "0.0"

/-- Concrete user record used to evaluate the embedding. -/
def aliceUser : UserRiskData :=
  { user_id := "1"
    name := "Alice Johnson"
    email := "alice@company.com"
    current_score := 45
    risk_level := "Critical"
    last_updated := "2024-01-15T10:30:00Z" }

/-- Concrete user record whose name and email contain no whitespace. -/
def bobUser : UserRiskData :=
  { user_id := "2"
    name := "Bob"
    email := "bob@company.com"
    current_score := 12
    risk_level := "Low"
    last_updated := "2024-01-15T10:30:00Z" }

/-- Concrete activity record used to evaluate the embedding. -/
def sampleActivity : ActivityLog :=
  { id := 1
    user_id := 1
    action := "login"
    resource := some "/admin/dashboard"
    location := some "192.168.1.100"
    success := true
    risk_score := 25
    timestamp := "2024-01-15T10:30:00Z" }

theorem subListB_nil (l : List Char) : subListB [] l = true := by
  cases l <;> rfl

theorem matchesSearch_empty (u : UserRiskData) : matchesSearch u "" = true := by
  have h0 : (jsToLower "").toList = ([] : List Char) := rfl
  unfold matchesSearch jsIncludes
  rw [h0, subListB_nil, subListB_nil]
  rfl

/-- C4: the Users table, the Risk Simulator result panel and the
UserDetail page band a risk score with the same fixed thresholds
(score ≥ 40 red, ≥ 30 orange, ≥ 20 yellow, otherwise green); the
banding is monotonic in the score; and 39.9 lands in the orange band
while 40.0 lands in the red band in every one of the three
components. -/
theorem banding_consistent_monotonic :
    (∀ s : ℚ,
      classBand (Users.getRiskScoreColor s) = classBand (RiskSimulator.getRiskColor s) ∧
      classBand (Users.getRiskScoreColor s) = classBand (UserDetail.getRiskScoreColor s)) ∧
    (∀ s t : ℚ, s ≤ t →
      (classBand (Users.getRiskScoreColor s)).rank ≤
        (classBand (Users.getRiskScoreColor t)).rank) ∧
    classBand (Users.getRiskScoreColor 39.9) = Band.orange ∧
    classBand (RiskSimulator.getRiskColor 39.9) = Band.orange ∧
    classBand (UserDetail.getRiskScoreColor 39.9) = Band.orange ∧
    classBand (Users.getRiskScoreColor 40) = Band.red ∧
    classBand (RiskSimulator.getRiskColor 40) = Band.red ∧
    classBand (UserDetail.getRiskScoreColor 40) = Band.red := by
  refine ⟨?_, ?_, ?_, ?_, ?_, by decide, by decide, by decide⟩
  · intro s
    unfold Users.getRiskScoreColor RiskSimulator.getRiskColor UserDetail.getRiskScoreColor
    constructor <;> split_ifs <;> rfl
  · intro s t hst
    unfold Users.getRiskScoreColor
    split_ifs <;> first | decide | (exfalso; linarith)
  · rw [Users.getRiskScoreColor, if_neg (by norm_num), if_pos (by norm_num)]
    rfl
  · rw [RiskSimulator.getRiskColor, if_neg (by norm_num), if_pos (by norm_num)]
    rfl
  · rw [UserDetail.getRiskScoreColor, if_neg (by norm_num), if_pos (by norm_num)]
    rfl

/-- C4 witness: the monotonicity part of the banding theorem applied at
the concrete scores 10 and 25. -/
theorem banding_consistent_monotonic_witness :
    (classBand (Users.getRiskScoreColor 10)).rank ≤
      (classBand (Users.getRiskScoreColor 25)).rank :=
  banding_consistent_monotonic.2.1 10 25 (by norm_num)

/-- C5 counterexample: with the single fetched user Bob (name "Bob",
email "bob@company.com"), the whitespace-only search term " " filters
Bob out (neither his lowercased name nor email contains a space), so the
filtered result is not the full unfiltered set. -/
theorem whitespace_search_drops_user :
    bobUser ∈ [bobUser] ∧ bobUser ∉ filterUsers [bobUser] " " "all" := by
  constructor
  · exact List.mem_singleton.mpr rfl
  · intro hmem
    unfold filterUsers at hmem
    rw [if_neg (by simp), List.mem_mergeSort, List.mem_filter] at hmem
    have hfalse : matchesSearch bobUser " " = false := by decide
    rw [hfalse] at hmem
    exact Bool.false_ne_true hmem.2

/-- C5 amended: with the risk-level filter at "all", the empty search
term returns the full fetched user set, merely reordered descending by
score (a permutation); a nonempty whitespace-only term instead behaves
as a literal substring search and can exclude users. -/
theorem filterUsers_empty_term_perm (users : List UserRiskData) :
    (filterUsers users "" "all").Perm users := by
  unfold filterUsers
  rw [if_neg (by simp)]
  rw [List.filter_eq_self.mpr (fun u _ => matchesSearch_empty u)]
  exact List.mergeSort_perm users _

/-- C10: for every fetched users array and every search term and
risk-level filter, the filtered view model is no longer than the fetched
array and every rendered record is one of the fetched records, so the
displayed "X of Y users" count never has X exceeding Y. -/
theorem filterUsers_subset (users : List UserRiskData)
    (searchTerm selectedFilter : String) :
    (filterUsers users searchTerm selectedFilter).length ≤ users.length ∧
    ∀ u : UserRiskData, u ∈ filterUsers users searchTerm selectedFilter → u ∈ users := by
  constructor
  · unfold filterUsers
    rw [List.length_mergeSort]
    split
    · exact le_trans (List.length_filter_le _ _) (List.length_filter_le _ _)
    · exact List.length_filter_le _ _
  · intro u hu
    unfold filterUsers at hu
    rw [List.mem_mergeSort] at hu
    split at hu
    · exact List.mem_of_mem_filter (List.mem_of_mem_filter hu)
    · exact List.mem_of_mem_filter hu

/-- C10 witness: the subset theorem applied to the singleton list of
Alice with an empty search term, discharging the membership hypothesis
at Alice herself. -/
theorem filterUsers_subset_witness : aliceUser ∈ [aliceUser] :=
  (filterUsers_subset [aliceUser] "" "all").2 aliceUser (by
    unfold filterUsers
    rw [if_neg (by simp), List.mem_mergeSort, List.mem_filter]
    exact ⟨List.mem_singleton.mpr rfl, matchesSearch_empty aliceUser⟩)

/-- C1: the riskAPI object exposes functions for the risk-score listing
and the single-user lookup (and a score update), but the pages also
invoke getDashboardStats, getRiskTrends, getUserActivity and predict on
it, none of which the object defines — so the client does not expose one
function per backend operation the pages use. -/
theorem api_client_missing_operations :
    ("getUserRiskScores" ∈ riskAPIMethods ∧ "getUserById" ∈ riskAPIMethods) ∧
    ("getDashboardStats" ∈ dashboardClientCalls ∧ "getDashboardStats" ∉ riskAPIMethods) ∧
    ("getRiskTrends" ∈ dashboardClientCalls ∧ "getRiskTrends" ∉ riskAPIMethods) ∧
    ("getUserActivity" ∈ userDetailClientCalls ∧ "getUserActivity" ∉ riskAPIMethods) ∧
    ("predict" ∈ simulatorClientCalls ∧ "predict" ∉ riskAPIMethods) := by
  decide

/-- C2: on a successful fetch of the one-user payload, getUserRiskScores
hands fetchUsers the bare array, fetchUsers then stores the undefined
data property of that array, so the users state does not receive the
response array and the subsequent render (users.length) has no user
list to count — the rendered row count cannot equal the response
length. -/
theorem users_fetch_double_unwrap :
    riskAPI.getUserRiskScores [aliceUser] = [aliceUser] ∧
    (fetchUsersRun (Except.ok [aliceUser])).newData = some none ∧
    (fetchUsersRun (Except.ok [aliceUser])).newData ≠ some (some [aliceUser]) ∧
    renderedUserRows none "" "all" = none := by
  refine ⟨rfl, rfl, by simp [fetchUsersRun, jsArrayDataField, riskAPI.getUserRiskScores], rfl⟩

/-- C3 counterexample: a failed fetch on the Users page surfaces zero
user-facing notifications (no toast of either kind), not exactly one; it
only writes to the console. -/
theorem users_failure_shows_no_notification :
    (fetchUsersRun (Except.error ())).errorToasts = 0 ∧
    (fetchUsersRun (Except.error ())).successToasts = 0 ∧
    (fetchUsersRun (Except.error ())).consoleErrors = 1 :=
  ⟨rfl, rfl, rfl⟩

/-- C3 amended: every page-level fetch failure is caught locally and the
page falls back to its empty or stale view with the loading flag
cleared; but notification behaviour is not uniform: the Users, Dashboard
and UserDetail pages only log the failure to the console and show no
notification, the Recommendations page shows one error toast (and one
log) on a network failure, and on a non-OK HTTP response it shows
neither a notification nor a log. -/
theorem page_fetch_failure_handling :
    ((fetchUsersRun (Except.error ())).newData = none ∧
     (fetchUsersRun (Except.error ())).isLoadingAfter = false ∧
     (fetchUsersRun (Except.error ())).consoleErrors = 1 ∧
     (fetchUsersRun (Except.error ())).errorToasts = 0 ∧
     (fetchUsersRun (Except.error ())).successToasts = 0) ∧
    ((fetchDashboardDataRun (Except.error ())).newData = none ∧
     (fetchDashboardDataRun (Except.error ())).isLoadingAfter = false ∧
     (fetchDashboardDataRun (Except.error ())).consoleErrors = 1 ∧
     (fetchDashboardDataRun (Except.error ())).errorToasts = 0 ∧
     (fetchDashboardDataRun (Except.error ())).successToasts = 0) ∧
    ((fetchUserDataRun (Except.error ())).newData = none ∧
     (fetchUserDataRun (Except.error ())).isLoadingAfter = false ∧
     (fetchUserDataRun (Except.error ())).consoleErrors = 1 ∧
     (fetchUserDataRun (Except.error ())).errorToasts = 0 ∧
     (fetchUserDataRun (Except.error ())).successToasts = 0) ∧
    ((fetchRecommendationsRun HttpOutcome.networkError).newData = none ∧
     (fetchRecommendationsRun HttpOutcome.networkError).isLoadingAfter = false ∧
     (fetchRecommendationsRun HttpOutcome.networkError).consoleErrors = 1 ∧
     (fetchRecommendationsRun HttpOutcome.networkError).errorToasts = 1 ∧
     (fetchRecommendationsRun HttpOutcome.networkError).successToasts = 0) ∧
    ((fetchRecommendationsRun HttpOutcome.httpError).newData = none ∧
     (fetchRecommendationsRun HttpOutcome.httpError).isLoadingAfter = false ∧
     (fetchRecommendationsRun HttpOutcome.httpError).consoleErrors = 0 ∧
     (fetchRecommendationsRun HttpOutcome.httpError).errorToasts = 0 ∧
     (fetchRecommendationsRun HttpOutcome.httpError).successToasts = 0) :=
  ⟨⟨rfl, rfl, rfl, rfl, rfl⟩, ⟨rfl, rfl, rfl, rfl, rfl⟩, ⟨rfl, rfl, rfl, rfl, rfl⟩,
    ⟨rfl, rfl, rfl, rfl, rfl⟩, ⟨rfl, rfl, rfl, rfl, rfl⟩⟩

/-- C6: for every prior draft, each preset overwrites exactly the fields
its data object carries and leaves every other field at its prior
value; in particular the Failed Login Attempts preset leaves file_size
(as well as user_id and login_frequency) unchanged. -/
theorem preset_shallow_merge (prev : PredictionRequest) :
    (applyPreset failedLoginAttemptsPreset prev).file_size = prev.file_size ∧
    (applyPreset failedLoginAttemptsPreset prev).user_id = prev.user_id ∧
    (applyPreset failedLoginAttemptsPreset prev).login_frequency = prev.login_frequency ∧
    applyPreset failedLoginAttemptsPreset prev =
      { prev with
        action := "login"
        resource := "/login"
        location := "198.51.100.30"
        success := false
        failed_attempts := 5
        session_duration := 5 } ∧
    applyPreset normalActivityPreset prev =
      { prev with
        action := "file_access"
        resource := "/documents/report.pdf"
        location := "192.168.1.100"
        success := true
        failed_attempts := 0
        session_duration := 120 } ∧
    applyPreset suspiciousLateAccessPreset prev =
      { prev with
        action := "system_access"
        resource := "/admin/config.php"
        location := "203.0.113.42"
        success := true
        failed_attempts := 0
        session_duration := 15 } ∧
    applyPreset largeDataDownloadPreset prev =
      { prev with
        action := "download"
        resource := "/database/backup.sql"
        location := "10.0.0.50"
        success := true
        failed_attempts := 0
        file_size := 2048
        session_duration := 300 } :=
  ⟨rfl, rfl, rfl, rfl, rfl, rfl, rfl⟩

/-- C7: when a submission fails, the simulator emits exactly one error
toast, leaves the previously displayed result untouched, and finishes
with isLoading false, so the submit control (disabled=isLoading) is
enabled again for a retry. -/
theorem simulator_failure_keeps_result (s : SimState) :
    (resolveFailure (submitStart s)).result = s.result ∧
    (resolveFailure (submitStart s)).isLoading = false ∧
    (resolveFailure (submitStart s)).toasts =
      s.toasts ++ [ToastKind.error "Failed to assess risk"] :=
  ⟨rfl, rfl, rfl⟩

theorem simReachable_flight_eq_isLoading (s : SimState) (h : SimReachable s) :
    s.inFlight = (if s.isLoading then 1 else 0) := by
  induction h with
  | init => rfl
  | step hr hstep ih =>
    cases hstep with
    | submit hguard =>
      simp [submitStart, hguard] at ih ⊢
      omega
    | resolveOk r hguard =>
      simp [resolveSuccess]
      rw [ih]
      split <;> rfl
    | resolveErr hguard =>
      simp [resolveFailure]
      rw [ih]
      split <;> rfl

/-- C8: in every reachable simulator state at most one prediction
request is in flight, and whenever one is in flight the submit control
is disabled (isLoading true), so starting a submission keeps the
control disabled until the response resolves and no two requests are
ever concurrent. -/
theorem simulator_no_concurrent_requests (s : SimState) (h : SimReachable s) :
    s.inFlight ≤ 1 ∧ (0 < s.inFlight → s.isLoading = true) := by
  have hx := simReachable_flight_eq_isLoading s h
  constructor
  · rw [hx]
    split <;> omega
  · intro hpos
    cases hb : s.isLoading
    · rw [hb] at hx
      simp at hx
      omega
    · rfl

/-- C8 witness: the no-concurrency theorem applied to the state reached
by one submit from the initial state. -/
theorem simulator_no_concurrent_requests_witness :
    (submitStart initSimState).inFlight ≤ 1 ∧
    (0 < (submitStart initSimState).inFlight → (submitStart initSimState).isLoading = true) :=
  simulator_no_concurrent_requests (submitStart initSimState)
    (SimReachable.step SimReachable.init (SimStep.submit initSimState rfl))

/-- C9: the Avg Risk Score card is total: with an empty activities list
it displays "0.0" without dividing, and with a non-empty list it
divides the summed scores by the list length, which is then provably
non-zero. -/
theorem avg_risk_score_total :
    (∀ acts : List ActivityLog, acts.length = 0 → avgRiskScoreDisplay acts = "0.0") ∧
    (∀ acts : List ActivityLog, acts ≠ [] →
      ((acts.length : ℚ) ≠ 0 ∧
        avgRiskScoreDisplay acts =
          toFixed1 ((acts.foldl (fun sum a => sum + a.risk_score) 0) /
            (acts.length : ℚ)))) := by
  constructor
  · intro acts h
    unfold avgRiskScoreDisplay
    rw [if_neg (by omega)]
  · intro acts h
    have hl : 0 < acts.length := List.length_pos.mpr h
    constructor
    · exact_mod_cast Nat.pos_iff_ne_zero.mp hl
    · unfold avgRiskScoreDisplay
      rw [if_pos hl]

/-- C9 witness: the totality theorem applied at the empty list and at
the singleton list holding the sample activity. -/
theorem avg_risk_score_total_witness :
    avgRiskScoreDisplay ([] : List ActivityLog) = "0.0" ∧
    ((([sampleActivity] : List ActivityLog).length : ℚ) ≠ 0 ∧
      avgRiskScoreDisplay [sampleActivity] =
        toFixed1 (([sampleActivity].foldl (fun sum a => sum + a.risk_score) 0) /
          (([sampleActivity] : List ActivityLog).length : ℚ))) :=
  ⟨avg_risk_score_total.1 [] rfl, avg_risk_score_total.2 [sampleActivity] (by simp)⟩

end CyberGuard
